import Mathlib

/-!
Shallow embedding of the SignalStack feedback service (src/index.js): a
Cloudflare Worker that ingests product feedback, classifies it with an AI
call (with a fixed fallback tag set), stores rows in a SQL table, and serves
aggregate endpoints (/stats and /clusters).

Modelling conventions:
* The SQL store is a `List FeedbackRecord` (insertion order).
* SQL NULL-able columns are `Option`; in particular `SUM(...)` over zero
  rows is `none`, matching SQLite semantics (SUM of an empty set is NULL),
  and JavaScript's `null` coerces to 0 in relational comparisons (`jsNum`).
* JavaScript exceptions are `Except Unit`: the external AI call and
  `JSON.parse` are injected as functions returning `Except`, and the
  handler's own unhandled throws are an explicit `thrown` result.
* JavaScript numbers are idealized as `Rat`; `Number(x.toFixed(2))` is
  `round2` (round half toward larger value at 2 decimal places).
-/

namespace SignalStack

/-- Enum/string constants appearing in src/index.js. -/
def sOther : String := "Other"

def sMedium : String := "Medium"

def sModerate : String := "Moderate"

def sNeutral : String := "Neutral"

def sHigh : String := "High"

def sCritical : String := "Critical"

def sNegative : String := "Negative"

def emptyS : String := ""

/-- The 4-field tag object produced by classification. Fields are `Option`
because a successfully parsed JSON object may carry `null` values, which the
code passes through to the store unvalidated (src/index.js line 65). -/
structure ClassificationTags where
  theme : Option String
  urgency : Option String
  severity : Option String
  sentiment : Option String
deriving DecidableEq

/-- The fallback tag set of `tagWithAI` (src/index.js lines 32-37). -/
def fallbackTags : ClassificationTags :=
  { theme := some sOther, urgency := some sMedium,
    severity := some sModerate, sentiment := some sNeutral }

/-- External collaborators of `tagWithAI`: truthiness of `env.AI`, the
outcome of `env.AI.run` on a given prompt (already coerced to a string, as
`String(ai.response || "")` does), and the behaviour of `JSON.parse` on a
given cleaned string. `Except.error` models a thrown exception. -/
structure AIEnv where
  available : Bool
  run : String → Except Unit String
  jsonParse : String → Except Unit ClassificationTags

/-- The fixed instruction prompt of src/index.js lines 41-53. -/
def classifyPrompt (text : String) : String :=
  "\nClassify the following product feedback.\n\n\"" ++ text ++
  "\"\n\nReturn ONLY valid JSON:\n\x7b\n  \"theme\": \"Authentication | Performance | UI/UX | Documentation | Bug | Feature Request | Integration | Other\",\n  \"urgency\": \"Low | Medium | High\",\n  \"severity\": \"Minor | Moderate | Critical\",\n  \"sentiment\": \"Positive | Neutral | Negative\"\n\x7d\n"

def fenceJson : String := "```json"

def fenceBare : String := "```"

/-- Code-fence stripping and trim applied to the raw AI response
(src/index.js lines 60-63). -/
def cleanResponse (raw : String) : String :=
  ((raw.replace fenceJson emptyS).replace fenceBare emptyS).trim

/-- The classifier adapter `tagWithAI` (src/index.js lines 31-69): returns
the fallback when `env.AI` is falsy; otherwise runs the model inside a
try/catch where any throw from the call or from `JSON.parse` yields the
fallback, and a successful parse is returned as-is. Totality of this Lean
function is the model of "never raises to its caller". -/
def tagWithAI (env : AIEnv) (text : String) : ClassificationTags :=
  if !env.available then fallbackTags
  else
    match env.run (classifyPrompt text) with
    | Except.error _ => fallbackTags
    | Except.ok resp =>
      match env.jsonParse (cleanResponse resp) with
      | Except.error _ => fallbackTags
      | Except.ok tags => tags

/-- A stored feedback row (the columns bound by the INSERT at src/index.js
lines 84-99). `id` is store-assigned and not modelled; `escalated` is bound
as the literal 0. -/
structure FeedbackRecord where
  text : String
  source : String
  timestamp : String
  created_at : String
  theme : Option String
  urgency : Option String
  severity : Option String
  sentiment : Option String
  escalated : Nat
deriving DecidableEq

/-- The destructured POST /feedback body fields; `none` models a missing
(or null) property. -/
structure FeedbackBody where
  text : Option String
  source : Option String
  timestamp : Option String
deriving DecidableEq

/-- JavaScript truthiness of a string-or-missing value: missing, null and
the empty string are falsy. -/
def truthy : Option String → Bool
  | none => false
  | some s => !(s == emptyS)

def requiredMsg : String := "text, source, timestamp required"

/-- Outcome of the POST /feedback handler when it produces a response. -/
structure PostOutcome where
  status : Nat
  errorMsg : Option String
  tags : Option ClassificationTags
  store : List FeedbackRecord
  classifierCalled : Bool
deriving DecidableEq

/-- Result of running the POST /feedback handler: either an unhandled throw
propagating out of `fetch` (carrying the unchanged store and whether the
classifier had been called), or a response. -/
inductive PostResult where
  | thrown (store : List FeedbackRecord) (classifierCalled : Bool)
  | response (out : PostOutcome)
deriving DecidableEq

/-- The POST /feedback handler (src/index.js lines 74-102). The first input
is the outcome of `await request.json()`: `Except.error` when the body is
not valid JSON (the rejection is not caught and propagates), `Except.ok
none` when it parses to null, `Except.ok (some b)` for an object. `body ||
{}` supplies an all-missing object for null. -/
def postFeedback (body : Except Unit (Option FeedbackBody)) (ai : AIEnv)
    (now : String) (store : List FeedbackRecord) : PostResult :=
  match body with
  | Except.error _ => PostResult.thrown store false
  | Except.ok parsed =>
    let b := parsed.getD { text := none, source := none, timestamp := none }
    if !(truthy b.text) || !(truthy b.source) || !(truthy b.timestamp) then
      PostResult.response
        { status := 400, errorMsg := some requiredMsg, tags := none,
          store := store, classifierCalled := false }
    else
      let tags := tagWithAI ai (b.text.getD emptyS)
      PostResult.response
        { status := 200, errorMsg := none, tags := some tags,
          store := store ++
            [{ text := b.text.getD emptyS, source := b.source.getD emptyS,
               timestamp := b.timestamp.getD emptyS, created_at := now,
               theme := tags.theme, urgency := tags.urgency,
               severity := tags.severity, sentiment := tags.sentiment,
               escalated := 0 }],
          classifierCalled := true }

/-- The row produced by the /stats aggregate query (src/index.js lines
108-115). `COUNT(*)` is always a number, but per SQLite semantics each
`SUM(CASE ...)` is NULL (here `none`) when the table has no rows. -/
structure StatsRow where
  total : Nat
  high_urgency : Option Nat
  critical : Option Nat
  negative : Option Nat
deriving DecidableEq

/-- The /stats aggregate over the store: row count, and conditional counts
for urgency='High', severity='Critical', sentiment='Negative' (a NULL
column value matches none of the WHEN comparisons, so it counts 0). -/
def aggregateTotals (store : List FeedbackRecord) : StatsRow :=
  { total := store.length
    high_urgency :=
      if store.length = 0 then none
      else some (store.countP (fun r => r.urgency == some sHigh))
    critical :=
      if store.length = 0 then none
      else some (store.countP (fun r => r.severity == some sCritical))
    negative :=
      if store.length = 0 then none
      else some (store.countP (fun r => r.sentiment == some sNegative)) }

/-- JavaScript numeric coercion of a number-or-null field as used by the
relational operators in the /stats handler: `null` coerces to 0. -/
def jsNum (o : Option Nat) : Rat := ((o.getD 0 : Nat) : Rat)

def negSummary : String := "User sentiment is trending negative."

def urgentSummary : String := "Urgent issues detected that may require prioritization."

def lowRiskSummary : String := "Feedback volume is low risk."

/-- The summary derivation of src/index.js lines 117-122. -/
def statsSummary (s : StatsRow) : String :=
  if jsNum s.negative > (s.total : Rat) / 2 then negSummary
  else if jsNum s.high_urgency > 0 ∨ jsNum s.critical > 0 then urgentSummary
  else lowRiskSummary

/-- The JSON body returned by GET /stats (`{...stats, summary}`). -/
structure StatsResponse where
  total : Nat
  high_urgency : Option Nat
  critical : Option Nat
  negative : Option Nat
  summary : String
deriving DecidableEq

/-- The GET /stats handler (src/index.js lines 107-128). -/
def statsResponse (store : List FeedbackRecord) : StatsResponse :=
  let s := aggregateTotals store
  { total := s.total, high_urgency := s.high_urgency, critical := s.critical,
    negative := s.negative, summary := statsSummary s }

/-- Numeric weight of the urgency column per the CASE expression at
src/index.js line 138 (NULL falls to the ELSE branch). -/
def urgencyWeight (u : Option String) : Rat :=
  if u == some sHigh then 3 else if u == some sMedium then 2 else 1

/-- Numeric weight of the severity column per the CASE expression at
src/index.js line 139. -/
def severityWeight (s : Option String) : Rat :=
  if s == some sCritical then 3 else if s == some sModerate then 2 else 1

/-- One row of the GROUP BY theme aggregate (src/index.js lines 134-142). -/
structure ThemeRow where
  theme : Option String
  coverage : Nat
  avg_urgency : Rat
  avg_severity : Rat
deriving DecidableEq

/-- The distinct theme values present in the store (GROUP BY keys; SQL
groups NULL themes together, modelled by `Option`). Output order of GROUP
BY is unspecified and irrelevant to the claims. -/
def themesOf : List FeedbackRecord → List (Option String)
  | [] => []
  | r :: rs =>
    let ts := themesOf rs
    if r.theme ∈ ts then ts else r.theme :: ts

/-- The rows of the store belonging to one theme group. -/
def themeRowsOf (store : List FeedbackRecord) (t : Option String) :
    List FeedbackRecord :=
  store.filter (fun r => r.theme == t)

/-- The aggregate row for one theme: COUNT(*) and the two AVGs of the CASE
weights over that theme's rows. -/
def themeRow (store : List FeedbackRecord) (t : Option String) : ThemeRow :=
  let rows := themeRowsOf store t
  { theme := t
    coverage := rows.length
    avg_urgency :=
      (rows.map (fun r => urgencyWeight r.urgency)).sum / (rows.length : Rat)
    avg_severity :=
      (rows.map (fun r => severityWeight r.severity)).sum / (rows.length : Rat) }

/-- The full GROUP BY theme aggregate: one row per distinct theme. -/
def aggregateByTheme (store : List FeedbackRecord) : List ThemeRow :=
  (themesOf store).map (themeRow store)

/-- Model of JavaScript `Number(x.toFixed(2))` on a nonnegative value: the
integer n minimizing the distance of n/100 to x, ties to the larger n. -/
def round2 (q : Rat) : Rat := ((Int.floor (q * 100 + 1 / 2) : Int) : Rat) / 100

/-- The priority formula of src/index.js line 145. -/
def priorityScore (coverage avgU avgS : Rat) : Rat := coverage * avgU * avgS

def taxonomyInsight : String := "Large volume of uncategorized feedback suggests taxonomy gaps."

def taxonomyRecommendation : String := "Refine AI classification prompts or expand feedback categories."

def highImpactInsight : String := "High-impact issue affecting multiple users."

def highImpactRecommendation : String := "Prioritize investigation and remediation."

def defaultInsight : String := "Recurring user feedback detected."

def defaultRecommendation : String := "Monitor and review in upcoming sprint."

/-- One element of the /clusters response array. -/
structure Cluster where
  theme : Option String
  coverage : Nat
  avg_urgency : Rat
  avg_severity : Rat
  priority : Rat
  insight : String
  recommendation : String
deriving DecidableEq

/-- The per-row mapping of the /clusters handler (src/index.js lines
144-167): compute the raw priority, pick insight/recommendation (theme
"Other" first, then priority > 20, then the defaults), and round the two
averages and the priority to 2 decimal places for output. -/
def mkCluster (r : ThemeRow) : Cluster :=
  let priority := priorityScore (r.coverage : Rat) r.avg_urgency r.avg_severity
  let pair : String × String :=
    if r.theme == some sOther then (taxonomyInsight, taxonomyRecommendation)
    else if priority > 20 then (highImpactInsight, highImpactRecommendation)
    else (defaultInsight, defaultRecommendation)
  { theme := r.theme, coverage := r.coverage,
    avg_urgency := round2 r.avg_urgency,
    avg_severity := round2 r.avg_severity,
    priority := round2 priority,
    insight := pair.1, recommendation := pair.2 }

/-- The sort comparator `(a, b) => b.priority - a.priority`: a stays before
b exactly when the comparator is nonpositive, i.e. descending priority. -/
def clusterLE (a b : Cluster) : Bool := decide (b.priority ≤ a.priority)

/-- The sorted cluster list of the /clusters handler (JavaScript sort is
stable; mergeSort models it). -/
def clustersOf (store : List FeedbackRecord) : List Cluster :=
  ((aggregateByTheme store).map mkCluster).mergeSort clusterLE

/-- The JSON body returned by GET /clusters. -/
structure ClustersResponse where
  top_problem : Option Cluster
  clusters : List Cluster
deriving DecidableEq

/-- The GET /clusters handler (src/index.js lines 133-174): `clusters[0] ||
null` is the head of the sorted list, or null when empty. -/
def clustersResponse (store : List FeedbackRecord) : ClustersResponse :=
  let cs := clustersOf store
  { top_problem := cs.head?, clusters := cs }

/-- The fixed sample list of the /seed handler (src/index.js lines
180-189), as text/source pairs. -/
def seedSamples : List (String × String) :=
  [("Login fails for enterprise users", "GitHub"),
   ("SSO integration breaks randomly", "Support"),
   ("Dashboard takes more than 10 seconds to load", "Discord"),
   ("API latency is very high during peak hours", "GitHub"),
   ("Documentation is outdated for v2 APIs", "Email"),
   ("Navigation is confusing in settings screen", "Twitter"),
   ("Need export to CSV feature", "Support"),
   ("Bug in report generation", "Support")]

/-- The record inserted for one seed sample: classify the text, then insert
with timestamp = created_at = the current time (src/index.js lines
191-211). A single clock value `now` stands for the per-iteration
timestamps, which no claim depends on. -/
def seedRecord (ai : AIEnv) (now : String) (s : String × String) :
    FeedbackRecord :=
  let tags := tagWithAI ai s.1
  { text := s.1, source := s.2, timestamp := now, created_at := now,
    theme := tags.theme, urgency := tags.urgency,
    severity := tags.severity, sentiment := tags.sentiment, escalated := 0 }

/-- The GET /seed handler: sequentially classify and append each sample,
then report `{status: "seeded", count: samples.length}`. Returns the final
store and the reported count. -/
def seedHandler (ai : AIEnv) (now : String) (store : List FeedbackRecord) :
    List FeedbackRecord × Nat :=
  (seedSamples.foldl (fun acc s => acc ++ [seedRecord ai now s]) store,
   seedSamples.length)

/-! Concrete example inputs used to exercise the definitions. -/

def nowS : String := "2026-01-01T00:00:00Z"

def sampleText : String := "Login fails"

def sampleSource : String := "GitHub"

def sampleTime : String := "2025-12-31T09:00:00Z"

def sBug : String := "Bug"

/-- An environment whose `env.AI` binding is falsy. -/
def envUnavailable : AIEnv :=
  { available := false, run := fun _ => Except.error (),
    jsonParse := fun _ => Except.error () }

/-- An environment whose model call throws. -/
def envCallError : AIEnv :=
  { available := true, run := fun _ => Except.error (),
    jsonParse := fun _ => Except.error () }

/-- An environment whose model call returns text on which `JSON.parse`
throws (e.g. the empty response). -/
def envParseError : AIEnv :=
  { available := true, run := fun _ => Except.ok emptyS,
    jsonParse := fun _ => Except.error () }

/-- A JSON response whose four fields are all null. -/
def respNull : String :=
  "\x7b\"theme\":null,\"urgency\":null,\"severity\":null,\"sentiment\":null\x7d"

/-- The tag object `JSON.parse` produces on `respNull`: all four fields
present and null. -/
def nullTags : ClassificationTags :=
  { theme := none, urgency := none, severity := none, sentiment := none }

/-- An environment whose model call succeeds with `respNull`; its
`jsonParse` reflects what `JSON.parse` returns on that text (a valid JSON
object with all-null fields), so the parse does not throw. -/
def envNullParse : AIEnv :=
  { available := true, run := fun _ => Except.ok respNull,
    jsonParse := fun _ => Except.ok nullTags }

/-- A fully populated, valid POST /feedback body. -/
def validBody : FeedbackBody :=
  { text := some sampleText, source := some sampleSource,
    timestamp := some sampleTime }

/-- A body whose text is the empty string (falsy). -/
def emptyTextBody : FeedbackBody :=
  { text := some emptyS, source := some sampleSource,
    timestamp := some sampleTime }

/-- A single stored row with theme Bug, urgency High, severity Critical. -/
def bugRecord : FeedbackRecord :=
  { text := sampleText, source := sampleSource, timestamp := sampleTime,
    created_at := nowS, theme := some sBug, urgency := some sHigh,
    severity := some sCritical, sentiment := some sNegative, escalated := 0 }

def store1 : List FeedbackRecord := [bugRecord]

/-- The cluster computed for theme Bug over `store1`. -/
def bugCluster : Cluster := mkCluster (themeRow store1 (some sBug))

/-- The record the POST /feedback handler inserts for a valid body: the
three caller fields, the server clock, and the four classifier tag fields
stored exactly as returned (src/index.js lines 84-99). -/
def insertedRecord (ai : AIEnv) (now : String) (b : FeedbackBody) :
    FeedbackRecord :=
  let tags := tagWithAI ai (b.text.getD emptyS)
  { text := b.text.getD emptyS, source := b.source.getD emptyS,
    timestamp := b.timestamp.getD emptyS, created_at := now,
    theme := tags.theme, urgency := tags.urgency,
    severity := tags.severity, sentiment := tags.sentiment, escalated := 0 }

/-- A theme row for theme Other with a large raw priority (10 × 3 × 3 =
90 > 20). -/
def otherRow : ThemeRow :=
  { theme := some sOther, coverage := 10, avg_urgency := 3, avg_severity := 3 }

/-! Helper lemmas shared by the claim theorems. -/

theorem themesOf_mem {t : Option String} :
    ∀ {l : List FeedbackRecord}, t ∈ themesOf l → ∃ r ∈ l, r.theme = t := by
  intro l
  induction l with
  | nil => intro h; simp [themesOf] at h
  | cons r rs ih =>
    intro h
    rw [themesOf] at h
    by_cases hmem : r.theme ∈ themesOf rs
    · simp only [hmem, if_pos] at h
      obtain ⟨r', hr', ht⟩ := ih h
      exact ⟨r', List.mem_cons_of_mem r hr', ht⟩
    · simp only [hmem, if_neg, not_false_iff, List.mem_cons] at h
      cases h with
      | inl h => exact ⟨r, List.mem_cons_self r rs, h.symm⟩
      | inr h =>
        obtain ⟨r', hr', ht⟩ := ih h
        exact ⟨r', List.mem_cons_of_mem r hr', ht⟩

theorem themeRowsOf_pos {store : List FeedbackRecord} {t : Option String}
    (h : ∃ r ∈ store, r.theme = t) : 0 < (themeRowsOf store t).length := by
  obtain ⟨r, hr, ht⟩ := h
  have hmem : r ∈ themeRowsOf store t := by
    simp only [themeRowsOf, List.mem_filter]
    exact ⟨hr, by simp [ht]⟩
  exact List.length_pos.mpr (List.ne_nil_of_mem hmem)

theorem mem_clustersOf {store : List FeedbackRecord} {c : Cluster}
    (h : c ∈ clustersOf store) :
    ∃ t ∈ themesOf store, c = mkCluster (themeRow store t) := by
  rw [clustersOf, List.mem_mergeSort] at h
  obtain ⟨row, hrow, hc⟩ := List.mem_map.mp h
  obtain ⟨t, ht, hrt⟩ := List.mem_map.mp hrow
  exact ⟨t, ht, by rw [← hc, ← hrt]⟩

theorem foldl_append_singleton {α β : Type} (f : β → α) (l : List β) :
    ∀ acc : List α, l.foldl (fun a s => a ++ [f s]) acc = acc ++ l.map f := by
  induction l with
  | nil => intro acc; simp
  | cons b l ih => intro acc; simp [ih]

/-! The claim theorems. -/

/-- C2: for every input text and every behaviour of the classification
capability, `tagWithAI` never raises (it is a total function) and returns
the fixed fallback tag set when the capability is unavailable, when the
call throws, and when the parse of the cleaned response throws. -/
theorem c2_classifier_fallback (ai : AIEnv) (text : String) :
    (ai.available = false → tagWithAI ai text = fallbackTags) ∧
    (∀ e, ai.run (classifyPrompt text) = Except.error e →
      tagWithAI ai text = fallbackTags) ∧
    (∀ resp e, ai.run (classifyPrompt text) = Except.ok resp →
      ai.jsonParse (cleanResponse resp) = Except.error e →
      tagWithAI ai text = fallbackTags) := by
  refine ⟨fun h => by simp [tagWithAI, h], fun e h => ?_, fun resp e h hp => ?_⟩
  · cases havail : ai.available with
    | false => simp [tagWithAI, havail]
    | true => simp [tagWithAI, havail, h]
  · cases havail : ai.available with
    | false => simp [tagWithAI, havail]
    | true => simp [tagWithAI, havail, h, hp]

/-- Witness for C2: the fallback is returned in each of the three concrete
failure environments. -/
theorem c2_witness :
    tagWithAI envUnavailable sampleText = fallbackTags ∧
    tagWithAI envCallError sampleText = fallbackTags ∧
    tagWithAI envParseError sampleText = fallbackTags :=
  ⟨(c2_classifier_fallback envUnavailable sampleText).1 rfl,
   (c2_classifier_fallback envCallError sampleText).2.1 () rfl,
   (c2_classifier_fallback envParseError sampleText).2.2 emptyS () rfl rfl⟩

/-- C5: a parsed POST /feedback body with any of text, source, timestamp
missing or falsy yields a 400 response with an error message, leaves the
store unchanged, and never calls the classifier; a body that parsed to
null behaves the same. -/
theorem c5_validation_rejects (ai : AIEnv) (now : String)
    (store : List FeedbackRecord) :
    (∀ b : FeedbackBody,
      truthy b.text = false ∨ truthy b.source = false ∨
        truthy b.timestamp = false →
      postFeedback (Except.ok (some b)) ai now store =
        PostResult.response
          { status := 400, errorMsg := some requiredMsg, tags := none,
            store := store, classifierCalled := false }) ∧
    postFeedback (Except.ok none) ai now store =
      PostResult.response
        { status := 400, errorMsg := some requiredMsg, tags := none,
          store := store, classifierCalled := false } := by
  constructor
  · intro b h
    have hcond :
        (!(truthy b.text) || !(truthy b.source) || !(truthy b.timestamp)) =
          true := by
      rcases h with h | h | h <;> simp [h]
    simp [postFeedback, hcond]
  · rfl

/-- Witness for C5: the empty-text body is rejected with 400 and no insert
on the empty store. -/
theorem c5_witness :
    truthy emptyTextBody.text = false ∧
    postFeedback (Except.ok (some emptyTextBody)) envUnavailable nowS [] =
      PostResult.response
        { status := 400, errorMsg := some requiredMsg, tags := none,
          store := [], classifierCalled := false } :=
  ⟨by decide,
   (c5_validation_rejects envUnavailable nowS []).1 emptyTextBody
     (Or.inl (by decide))⟩

/-- C9: the priority product is monotonically non-decreasing in each of
coverage, avg urgency and avg severity, the other two factors held fixed,
for non-negative factors. -/
theorem c9_priority_monotone (c c' u u' s s' : Rat)
    (hc : 0 ≤ c) (hu : 0 ≤ u) (hs : 0 ≤ s) :
    (c ≤ c' → priorityScore c u s ≤ priorityScore c' u s) ∧
    (u ≤ u' → priorityScore c u s ≤ priorityScore c u' s) ∧
    (s ≤ s' → priorityScore c u s ≤ priorityScore c u s') := by
  refine ⟨fun h => ?_, fun h => ?_, fun h => ?_⟩
  · exact mul_le_mul_of_nonneg_right
      (mul_le_mul_of_nonneg_right h hu) hs
  · exact mul_le_mul_of_nonneg_right
      (mul_le_mul_of_nonneg_left h hc) hs
  · exact mul_le_mul_of_nonneg_left h (mul_nonneg hc hu)

/-- Witness for C9: monotonicity at concrete factor values. -/
theorem c9_witness :
    priorityScore 1 2 3 ≤ priorityScore 4 2 3 ∧
    priorityScore 1 2 3 ≤ priorityScore 1 5 3 ∧
    priorityScore 1 2 3 ≤ priorityScore 1 2 6 :=
  ⟨(c9_priority_monotone 1 4 2 5 3 6 (by decide) (by decide) (by decide)).1
     (by decide),
   (c9_priority_monotone 1 4 2 5 3 6 (by decide) (by decide) (by decide)).2.1
     (by decide),
   (c9_priority_monotone 1 4 2 5 3 6 (by decide) (by decide) (by decide)).2.2
     (by decide)⟩

/-- C10: a POST /feedback request whose body is not valid JSON produces no
400 response and no insert: the rejection of `request.json()` propagates
out of the handler unhandled, with the store unchanged and the classifier
never called. -/
theorem c10_invalid_json_propagates (ai : AIEnv) (now : String)
    (store : List FeedbackRecord) :
    postFeedback (Except.error ()) ai now store =
      PostResult.thrown store false := rfl

/-- C8: the /stats summary is chosen by the first matching rule over the
aggregate row: trending-negative when negative > total/2 (JavaScript
coercion of null to 0), else urgent when high_urgency > 0 or critical > 0,
else low risk. -/
theorem c8_summary_first_match (store : List FeedbackRecord) :
    (jsNum (aggregateTotals store).negative >
        ((aggregateTotals store).total : Rat) / 2 →
      (statsResponse store).summary = negSummary) ∧
    (¬(jsNum (aggregateTotals store).negative >
        ((aggregateTotals store).total : Rat) / 2) →
      (jsNum (aggregateTotals store).high_urgency > 0 ∨
        jsNum (aggregateTotals store).critical > 0) →
      (statsResponse store).summary = urgentSummary) ∧
    (¬(jsNum (aggregateTotals store).negative >
        ((aggregateTotals store).total : Rat) / 2) →
      ¬(jsNum (aggregateTotals store).high_urgency > 0 ∨
        jsNum (aggregateTotals store).critical > 0) →
      (statsResponse store).summary = lowRiskSummary) := by
  refine ⟨fun h1 => ?_, fun h1 h2 => ?_, fun h1 h2 => ?_⟩
  · show statsSummary (aggregateTotals store) = negSummary
    rw [statsSummary, if_pos h1]
  · show statsSummary (aggregateTotals store) = urgentSummary
    rw [statsSummary, if_neg h1, if_pos h2]
  · show statsSummary (aggregateTotals store) = lowRiskSummary
    rw [statsSummary, if_neg h1, if_neg h2]

/-- Witness for C8: the single all-negative record triggers the
trending-negative rule, and the empty store falls to the low-risk rule. -/
theorem c8_witness :
    (statsResponse store1).summary = negSummary ∧
    (statsResponse []).summary = lowRiskSummary :=
  ⟨(c8_summary_first_match store1).1
     (by norm_num [aggregateTotals, store1, bugRecord, jsNum]),
   (c8_summary_first_match []).2.2
     (by norm_num [aggregateTotals, jsNum])
     (by norm_num [aggregateTotals, jsNum])⟩

/-- C3 counterexample: on the empty store the /stats aggregate's three
SUM columns are NULL (none), not 0, so the response is not the claimed
all-zero object; the total and the summary do match the claim. -/
theorem c3_counterexample :
    (statsResponse []).total = 0 ∧
    (statsResponse []).summary = lowRiskSummary ∧
    (statsResponse []).high_urgency ≠ some 0 ∧
    (statsResponse []).critical ≠ some 0 ∧
    (statsResponse []).negative ≠ some 0 := by
  refine ⟨rfl, ?_, by simp [statsResponse, aggregateTotals],
    by simp [statsResponse, aggregateTotals],
    by simp [statsResponse, aggregateTotals]⟩
  show statsSummary (aggregateTotals []) = lowRiskSummary
  rw [statsSummary]
  norm_num [aggregateTotals, jsNum]

/-- C3 amended: on the empty store GET /stats returns total 0, null for the
three SUM-derived counts, and the low-risk summary; in particular the
handler evaluates the negative > total/2 comparison without faulting
(totality of `statsResponse`). -/
theorem c3_empty_stats_response :
    statsResponse [] =
      { total := 0, high_urgency := none, critical := none,
        negative := none, summary := lowRiskSummary } := by
  have hs : statsSummary
      { total := 0, high_urgency := none, critical := none,
        negative := none } = lowRiskSummary := by
    rw [statsSummary]
    norm_num [jsNum]
  simp [statsResponse, aggregateTotals, hs]

/-- C6: insight and recommendation come from the first matching rule:
theme "Other" always selects the taxonomy-gap pair (whatever the raw
priority), otherwise raw priority > 20 selects the high-impact pair,
otherwise the default pair is used. -/
theorem c6_insight_first_match (r : ThemeRow) :
    (r.theme = some sOther →
      (mkCluster r).insight = taxonomyInsight ∧
      (mkCluster r).recommendation = taxonomyRecommendation) ∧
    (r.theme ≠ some sOther →
      priorityScore (r.coverage : Rat) r.avg_urgency r.avg_severity > 20 →
      (mkCluster r).insight = highImpactInsight ∧
      (mkCluster r).recommendation = highImpactRecommendation) ∧
    (r.theme ≠ some sOther →
      ¬(priorityScore (r.coverage : Rat) r.avg_urgency r.avg_severity > 20) →
      (mkCluster r).insight = defaultInsight ∧
      (mkCluster r).recommendation = defaultRecommendation) := by
  refine ⟨fun h => ?_, fun h hp => ?_, fun h hp => ?_⟩
  · simp [mkCluster, h]
  · simp [mkCluster, h, hp]
  · simp [mkCluster, h, hp]

/-- Witness for C6: a theme-Other row with raw priority 90 > 20 still gets
the taxonomy-gap pair. -/
theorem c6_witness :
    priorityScore ((otherRow.coverage : Nat) : Rat) otherRow.avg_urgency
        otherRow.avg_severity > 20 ∧
    ((mkCluster otherRow).insight = taxonomyInsight ∧
      (mkCluster otherRow).recommendation = taxonomyRecommendation) :=
  ⟨by norm_num [priorityScore, otherRow],
   (c6_insight_first_match otherRow).1 rfl⟩

/-- C4 counterexample: with the capability returning the parseable all-null
JSON object `respNull`, a valid submission stores a record whose four
classification fields are all null — the original invariant fails. -/
theorem c4_counterexample :
    postFeedback (Except.ok (some validBody)) envNullParse nowS [] =
      PostResult.response
        { status := 200, errorMsg := none, tags := some nullTags,
          store := [{ text := sampleText, source := sampleSource,
                      timestamp := sampleTime, created_at := nowS,
                      theme := none, urgency := none, severity := none,
                      sentiment := none, escalated := 0 }],
          classifierCalled := true } ∧
    nullTags.theme = none ∧ nullTags.urgency = none ∧
    nullTags.severity = none ∧ nullTags.sentiment = none := by decide

/-- C4 amended: records stored by the ingestion and seed paths carry
exactly the tag set the classifier returned (pass-through, no validation);
whenever that tag set is the fallback — capability unavailable, call
error, or parse error — the four stored classification fields are the
non-null values Other/Medium/Moderate/Neutral. -/
theorem c4_stored_tags_pass_through (ai : AIEnv) (now : String)
    (store : List FeedbackRecord) (b : FeedbackBody)
    (ht : truthy b.text = true) (hs : truthy b.source = true)
    (hts : truthy b.timestamp = true) :
    postFeedback (Except.ok (some b)) ai now store =
      PostResult.response
        { status := 200, errorMsg := none,
          tags := some (tagWithAI ai (b.text.getD emptyS)),
          store := store ++ [insertedRecord ai now b],
          classifierCalled := true } ∧
    (seedHandler ai now store).1 =
      store ++ seedSamples.map (seedRecord ai now) ∧
    (tagWithAI ai (b.text.getD emptyS) = fallbackTags →
      (insertedRecord ai now b).theme = some sOther ∧
      (insertedRecord ai now b).urgency = some sMedium ∧
      (insertedRecord ai now b).severity = some sModerate ∧
      (insertedRecord ai now b).sentiment = some sNeutral) ∧
    (∀ s : String × String, tagWithAI ai s.1 = fallbackTags →
      (seedRecord ai now s).theme = some sOther ∧
      (seedRecord ai now s).urgency = some sMedium ∧
      (seedRecord ai now s).severity = some sModerate ∧
      (seedRecord ai now s).sentiment = some sNeutral) := by
  refine ⟨?_, ?_, fun hf => ?_, fun s hf => ?_⟩
  · simp [postFeedback, ht, hs, hts, insertedRecord]
  · exact foldl_append_singleton (seedRecord ai now) seedSamples store
  · simp [insertedRecord, hf, fallbackTags]
  · simp [seedRecord, hf, fallbackTags]

/-- Witness for C4: on the unavailable-capability environment a valid
submission stores the record with the non-null fallback fields. -/
theorem c4_witness :
    postFeedback (Except.ok (some validBody)) envUnavailable nowS [] =
      PostResult.response
        { status := 200, errorMsg := none,
          tags := some (tagWithAI envUnavailable (validBody.text.getD emptyS)),
          store := [insertedRecord envUnavailable nowS validBody],
          classifierCalled := true } ∧
    (insertedRecord envUnavailable nowS validBody).theme = some sOther :=
  ⟨(c4_stored_tags_pass_through envUnavailable nowS [] validBody
      (by decide) (by decide) (by decide)).1,
   ((c4_stored_tags_pass_through envUnavailable nowS [] validBody
      (by decide) (by decide) (by decide)).2.2.1 rfl).1⟩

/-- C1: every row of the /clusters response describes a nonempty theme
group of the store: coverage is the group's row count, the two averages
are the means of the fixed urgency/severity weight mapping over the group
(rounded to 2 decimals for output), and priority is the product of
coverage and the two unrounded means, rounded to 2 decimals — no
normalization and no cap. -/
theorem c1_cluster_row_formula (store : List FeedbackRecord) (c : Cluster)
    (hc : c ∈ (clustersResponse store).clusters) :
    0 < (themeRowsOf store c.theme).length ∧
    c.coverage = (themeRowsOf store c.theme).length ∧
    c.avg_urgency = round2
      (((themeRowsOf store c.theme).map
          (fun r => urgencyWeight r.urgency)).sum /
        ((themeRowsOf store c.theme).length : Rat)) ∧
    c.avg_severity = round2
      (((themeRowsOf store c.theme).map
          (fun r => severityWeight r.severity)).sum /
        ((themeRowsOf store c.theme).length : Rat)) ∧
    c.priority = round2
      (priorityScore ((themeRowsOf store c.theme).length : Rat)
        (((themeRowsOf store c.theme).map
            (fun r => urgencyWeight r.urgency)).sum /
          ((themeRowsOf store c.theme).length : Rat))
        (((themeRowsOf store c.theme).map
            (fun r => severityWeight r.severity)).sum /
          ((themeRowsOf store c.theme).length : Rat))) := by
  obtain ⟨t, ht, rfl⟩ :=
    mem_clustersOf (show _ ∈ clustersOf store from hc)
  exact ⟨themeRowsOf_pos (themesOf_mem ht), rfl, rfl, rfl, rfl⟩

theorem bugCluster_mem : bugCluster ∈ (clustersResponse store1).clusters :=
  List.mem_mergeSort.mpr (List.mem_singleton_self bugCluster)

theorem bugRows_eval : themeRowsOf store1 (some sBug) = [bugRecord] := by
  simp [themeRowsOf, store1, bugRecord]

theorem bugCluster_priority : bugCluster.priority = 9 := by
  have h : bugCluster.priority = round2
      (priorityScore ((1 : Nat) : Rat)
        (urgencyWeight (some sHigh) / ((1 : Nat) : Rat))
        (severityWeight (some sCritical) / ((1 : Nat) : Rat))) := by
    simp [bugCluster, mkCluster, themeRow, bugRows_eval, bugRecord]
  rw [h, urgencyWeight, severityWeight]
  norm_num [round2, priorityScore]

/-- Witness for C1: the Bug cluster of the one-record store is in the
response and satisfies the priority formula; numerically its output
priority is 9 (coverage 1 × urgency weight 3 × severity weight 3). -/
theorem c1_witness :
    bugCluster ∈ (clustersResponse store1).clusters ∧
    bugCluster.priority = round2
      (priorityScore ((themeRowsOf store1 bugCluster.theme).length : Rat)
        (((themeRowsOf store1 bugCluster.theme).map
            (fun r => urgencyWeight r.urgency)).sum /
          ((themeRowsOf store1 bugCluster.theme).length : Rat))
        (((themeRowsOf store1 bugCluster.theme).map
            (fun r => severityWeight r.severity)).sum /
          ((themeRowsOf store1 bugCluster.theme).length : Rat))) ∧
    bugCluster.priority = 9 :=
  ⟨bugCluster_mem,
   (c1_cluster_row_formula store1 bugCluster bugCluster_mem).2.2.2.2,
   bugCluster_priority⟩

/-- C7: the /clusters response list is sorted by descending priority,
top_problem is its head (so the highest-priority cluster when any theme
exists, null otherwise), and the empty store yields exactly
top_problem null with an empty cluster list. -/
theorem c7_sorted_clusters (store : List FeedbackRecord) :
    ((clustersResponse store).clusters).Pairwise
      (fun a b => b.priority ≤ a.priority) ∧
    (clustersResponse store).top_problem =
      ((clustersResponse store).clusters).head? ∧
    (∀ c, (clustersResponse store).top_problem = some c →
      ∀ d ∈ (clustersResponse store).clusters, d.priority ≤ c.priority) ∧
    (store = [] →
      clustersResponse store =
        { top_problem := none, clusters := [] }) := by
  have htrans : ∀ a b c : Cluster,
      clusterLE a b → clusterLE b c → clusterLE a c := by
    intro a b c hab hbc
    simp only [clusterLE, decide_eq_true_eq] at hab hbc ⊢
    exact le_trans hbc hab
  have htotal : ∀ a b : Cluster, clusterLE a b || clusterLE b a := by
    intro a b
    simp only [clusterLE, Bool.or_eq_true, decide_eq_true_eq]
    exact le_total b.priority a.priority
  have hsorted : ((clustersResponse store).clusters).Pairwise
      (fun a b => b.priority ≤ a.priority) := by
    have hp := @List.sorted_mergeSort Cluster clusterLE htrans htotal
      ((aggregateByTheme store).map mkCluster)
    exact hp.imp (fun h => by
      simpa only [clusterLE, decide_eq_true_eq] using h)
  refine ⟨hsorted, rfl, ?_, ?_⟩
  · intro c hc d hd
    have hc' : ((clustersResponse store).clusters).head? = some c := hc
    cases hcl : (clustersResponse store).clusters with
    | nil =>
      rw [hcl] at hd
      exact absurd hd (List.not_mem_nil d)
    | cons x xs =>
      rw [hcl] at hc' hd hsorted
      have hx : x = c := by simpa using hc'
      subst hx
      rcases List.mem_cons.mp hd with h | h
      · exact le_of_eq (congrArg Cluster.priority h)
      · exact (List.pairwise_cons.mp hsorted).1 d h
  · intro h
    subst h
    simp [clustersResponse, clustersOf, aggregateByTheme, themesOf]

/-- Witness for C7: evaluating the empty-store clause yields the exact
empty response. -/
theorem c7_witness :
    clustersResponse [] = { top_problem := none, clusters := [] } :=
  (c7_sorted_clusters []).2.2.2 rfl

end SignalStack
